import Mathlib

/-!
Shallow embedding of the sale-finalization, offer-creation and rating
subsystem of the school-swap marketplace.

Sources embedded here:
- `src/src/pages/MyListings.tsx` : `fetchListings` (the interested-buyers
  snapshot) and `handleAcceptBuyer` (the finalization flow).
- `src/src/components/Navbar.tsx` : `BuyModal.handlePurchase` (offer
  creation).
- `src/src/pages/Admin.tsx` (the Transactions page) : `fetchTransactions`,
  the Rate-button gating (`transaction.status === 'completed' &&
  !transaction.rating`) and `submitRating`.
- `src/supabase/migrations/*.sql` : the row-level-security conditions on
  `listings` and `transactions` updates, and the shape of the `ratings`
  and `notifications` tables (no uniqueness constraint on ratings).

Modelling conventions:
- Each Supabase table is a list of records; an `update ... .eq(...)`
  call is a `List.map` that rewrites exactly the rows matched by the
  client-side filters and by the row-level-security USING condition of
  the table's UPDATE policy.  Note that a Supabase update that matches
  zero rows reports no error: errors are only storage faults, which we
  model as boolean fault flags passed to each operation.
- Client snapshots (`ListingWithBuyers`, the transaction views of the
  Transactions page) are explicit arguments of the operations, exactly
  as the React components pass previously-fetched state into their
  handlers; a stale snapshot is therefore expressible.
- The first migration constrains `listings.status` to
  pending/approved/rejected, and no later migration in the repository
  widens the CHECK to include the value `sold` that the client writes;
  the embedding models the store the client code assumes, in which the
  `sold` write applies.
- `toast` messages, React state updates and the `messages` side channel
  are not part of any claim and are omitted.
-/

/-- Listing availability, `listings.status` in the source
(`pending`/`approved`/`rejected`/`sold`; the spec calls these
`pending_review`/`listed`/`rejected`/`sold`). -/
inductive LStatus
  | lpending
  | approved
  | rejected
  | sold
deriving DecidableEq, Repr

/-- Transaction (spec: Offer) status, `transactions.status` in the source. -/
inductive TStatus
  | pending
  | completed
  | cancelled
deriving DecidableEq, Repr

/-- A row of the `listings` table (the columns the embedded code touches). -/
structure Listing where
  id : Nat
  seller_id : Nat
  status : LStatus
deriving DecidableEq, Repr

/-- A row of the `transactions` table (the columns the embedded code touches). -/
structure Txn where
  id : Nat
  listing_id : Option Nat
  buyer_id : Nat
  seller_id : Nat
  amount : Nat
  payment_method : String
  status : TStatus
  completed_at : Option Nat
deriving DecidableEq, Repr

/-- A row of the `ratings` table.  The migration declares no uniqueness
constraint on `(transaction_id, rater_id)`. -/
structure Rating where
  transaction_id : Nat
  rater_id : Nat
  rated_user_id : Nat
deriving DecidableEq, Repr

/-- A row of the `notifications` table (recipient, `type`, `title`,
`listing_id`). -/
structure Notice where
  user_id : Nat
  ntype : String
  title : String
  listing_id : Option Nat
deriving DecidableEq, Repr

/-- The persistent store: the four tables the embedded operations read and
write, plus the set of admin users consulted by the row-level-security
`has_role(auth.uid(), 'admin')` check. -/
structure DB where
  listings : List Listing
  transactions : List Txn
  ratings : List Rating
  notices : List Notice
  admin_ids : List Nat
deriving DecidableEq, Repr

/-- Row-level security for `listings` UPDATE (migration
`20251126201053`): `auth.uid() = seller_id OR has_role(auth.uid(), 'admin')`. -/
def canUpdateListing (db : DB) (uid : Nat) (l : Listing) : Bool :=
  l.seller_id == uid || db.admin_ids.contains uid

/-- Row-level security for `transactions` UPDATE (migration
`20251129202811`): `buyer_id = auth.uid() OR seller_id = auth.uid()`. -/
def canUpdateTxn (uid : Nat) (t : Txn) : Bool :=
  t.buyer_id == uid || t.seller_id == uid

/-- Step 1 of `handleAcceptBuyer` (MyListings.tsx lines 137-141):
`update listings set status = 'sold' where id = lid and seller_id = uid`.
There is no filter on the current status. -/
def markListingSold (db : DB) (uid lid : Nat) : DB :=
  { db with listings := db.listings.map fun l =>
      if l.id == lid && l.seller_id == uid && canUpdateListing db uid l
      then { l with status := .sold } else l }

/-- Step 2 of `handleAcceptBuyer` (MyListings.tsx lines 149-156):
`update transactions set status = 'completed', completed_at = now()
where id = tid and seller_id = uid`.  No filter on the current status. -/
def completeTxn (db : DB) (uid tid now : Nat) : DB :=
  { db with transactions := db.transactions.map fun t =>
      if t.id == tid && t.seller_id == uid && canUpdateTxn uid t
      then { t with status := .completed, completed_at := some now } else t }

/-- Step 3 of `handleAcceptBuyer` (MyListings.tsx lines 169-172):
`update transactions set status = 'cancelled' where id in ids`.  The only
client-side filter is the id list; no filter on the current status. -/
def cancelTxns (db : DB) (uid : Nat) (ids : List Nat) : DB :=
  { db with transactions := db.transactions.map fun t =>
      if ids.contains t.id && canUpdateTxn uid t
      then { t with status := .cancelled } else t }

/-- An insert into the `notifications` table (RLS `WITH CHECK (true)`). -/
def pushNote (db : DB) (n : Notice) : DB :=
  { db with notices := db.notices ++ [n] }

/-- One entry of `listing.interested_buyers` as built by `fetchListings`
(MyListings.tsx lines 88-101). -/
structure InterestedBuyer where
  transaction_id : Nat
  buyer_id : Nat
deriving DecidableEq, Repr

/-- The listing snapshot `handleAcceptBuyer` receives (MyListings.tsx
interface `ListingWithBuyers`). -/
structure ListingWithBuyers where
  id : Nat
  title : String
  interested_buyers : List InterestedBuyer
deriving DecidableEq, Repr

/-- The interested-buyers snapshot `fetchListings` computes for one
listing (MyListings.tsx lines 65-101): the transactions referencing the
listing whose status is `pending` at snapshot time. -/
def interestedBuyersFor (db : DB) (lid : Nat) : List InterestedBuyer :=
  (db.transactions.filter fun t =>
      t.listing_id == some lid && t.status == .pending).map
    fun t => { transaction_id := t.id, buyer_id := t.buyer_id }

/-- Outcomes of `handleAcceptBuyer`: the success toast, or one of the two
thrown errors (`Failed to update listing status`,
`Failed to complete transaction`).  The source has no
AlreadyFinalized / NotAuthorized / OfferInvalid outcome. -/
inductive AcceptResult
  | ok
  | listingUpdateFailed
  | txnUpdateFailed
deriving DecidableEq, Repr

/-- The competing transaction ids of step 3 (MyListings.tsx lines
164-166): the snapshot's interested buyers minus the chosen one. -/
def competingIds (listing : ListingWithBuyers) (buyer : InterestedBuyer) : List Nat :=
  ((listing.interested_buyers.filter fun b =>
      b.transaction_id != buyer.transaction_id).map fun b => b.transaction_id)

/-- The notification queued for the accepted buyer (MyListings.tsx lines
183-189). -/
def confirmNote (listing : ListingWithBuyers) (buyer : InterestedBuyer) : Notice :=
  { user_id := buyer.buyer_id, ntype := "purchase_confirmed",
    title := "Purchase Confirmed!", listing_id := some listing.id }

/-- The notification queued for a rejected buyer (MyListings.tsx lines
191-201): note the `type` column is `purchase_rejected`, with title
`Item Sold`. -/
def soldNote (listing : ListingWithBuyers) (b : InterestedBuyer) : Notice :=
  { user_id := b.buyer_id, ntype := "purchase_rejected",
    title := "Item Sold", listing_id := some listing.id }

/-- `handleAcceptBuyer` (MyListings.tsx lines 126-214), the finalization
flow.  `listing` and `buyer` are the snapshot the dialog was opened from;
`uid` is `user.id`.  The boolean flags inject storage faults for each of
the four writes: a faulted write applies nothing.  Following the source:
a listing-update fault throws before any mutation; a transaction-update
fault throws after step 1 with no compensation; a fault of the
cancellation update is logged and dropped ("Don't throw - this is not
critical"); the notification inserts are fire-and-forget
(`Promise.all(...).catch(...)`). -/
def handleAcceptBuyer (db : DB) (uid : Nat) (listing : ListingWithBuyers)
    (buyer : InterestedBuyer) (now : Nat)
    (listingFault txnFault cancelFault notifyFault : Bool) : DB × AcceptResult :=
  if listingFault then (db, .listingUpdateFailed)
  else
    let db1 := markListingSold db uid listing.id
    if txnFault then (db1, .txnUpdateFailed)
    else
      let db2 := completeTxn db1 uid buyer.transaction_id now
      let others := competingIds listing buyer
      let db3 := if others.isEmpty || cancelFault then db2
                 else cancelTxns db2 uid others
      let db4 :=
        if notifyFault then db3
        else
          (listing.interested_buyers.filter fun b =>
              b.transaction_id != buyer.transaction_id).foldl
            (fun d b => pushNote d (soldNote listing b))
            (pushNote db3 (confirmNote listing buyer))
      (db4, .ok)

/-- The listing data `BuyModal` receives (Navbar.tsx source file,
`BuyModalProps`), fetched by `ListingDetail.fetchListing`. -/
structure ListingView where
  id : Nat
  seller_id : Nat
  price : Nat
  listing_type : String
  status : LStatus
deriving DecidableEq, Repr

/-- Outcome of `handlePurchase`: success toast or the caught insert error. -/
inductive BuyResult
  | ok
  | failed
deriving DecidableEq, Repr

/-- The transaction row `handlePurchase` inserts (Navbar.tsx source file,
lines 238-257): status `pending`, amount 0 for a borrow, buyer is the
caller, seller copied from the listing snapshot. -/
def purchaseTxn (uid : Nat) (l : ListingView) (payment : String) (tid : Nat) : Txn :=
  { id := tid, listing_id := some l.id, buyer_id := uid,
    seller_id := l.seller_id,
    amount := if l.listing_type == "borrow" then 0 else l.price,
    payment_method := payment, status := .pending, completed_at := none }

/-- `BuyModal.handlePurchase` (Navbar.tsx source file, lines 224-287):
inserts the pending transaction, then a notification to the seller.
It performs no check of the listing's current status; the RLS INSERT
policy only requires `buyer_id = auth.uid()`, which holds by
construction.  `insertFault` injects a storage fault of the insert. -/
def handlePurchase (db : DB) (uid : Nat) (l : ListingView) (payment : String)
    (tid : Nat) (insertFault : Bool) : DB × BuyResult :=
  if insertFault then (db, .failed)
  else
    let isBorrow := l.listing_type == "borrow"
    let db1 := { db with transactions := db.transactions ++ [purchaseTxn uid l payment tid] }
    let db2 := pushNote db1
      { user_id := l.seller_id,
        ntype := if isBorrow then "borrow_request" else "purchase",
        title := if isBorrow then "Someone wants to borrow your item!"
                 else "You have a new buyer!",
        listing_id := some l.id }
    (db2, .ok)

/-- Whether the buy button is rendered at all (ListingDetail.tsx lines
233-246): hidden once the fetched snapshot says `sold`, and for the
seller's own listing. -/
def buyButtonShown (l : ListingView) (uid : Nat) : Bool :=
  !(l.status == .sold) && l.seller_id != uid

/-- Whether a rating by `uid` for transaction `tid` exists
(`fetchTransactions` loads `ratings` filtered by `rater_id = user.id`,
Admin.tsx source file line 731). -/
def hasRatingBy (db : DB) (tid uid : Nat) : Bool :=
  db.ratings.any fun r => r.transaction_id == tid && r.rater_id == uid

/-- Number of stored ratings for the pair `(tid, uid)`. -/
def ratingCount (db : DB) (tid uid : Nat) : Nat :=
  (db.ratings.filter fun r => r.transaction_id == tid && r.rater_id == uid).length

/-- The per-transaction view the Transactions page renders for `uid`
(Admin.tsx source file, `fetchTransactions`): the row plus `rating`,
the caller's own rating of it if any. -/
structure TxnView where
  id : Nat
  buyer_id : Nat
  seller_id : Nat
  status : TStatus
  hasRating : Bool
deriving DecidableEq, Repr

/-- The fresh view of transaction `t` as `fetchTransactions` builds it. -/
def mkTxnView (db : DB) (uid : Nat) (t : Txn) : TxnView :=
  { id := t.id, buyer_id := t.buyer_id, seller_id := t.seller_id,
    status := t.status, hasRating := hasRatingBy db t.id uid }

/-- Outcome of a rating attempt.  The source gates rating in the render
condition of the Rate button (Admin.tsx source file line 909:
`transaction.status === 'completed' && !transaction.rating`); the two
refusal outcomes record which conjunct failed. -/
inductive RateResult
  | rated
  | notCompleted
  | alreadyRated
deriving DecidableEq, Repr

/-- The user-level rating operation of the Transactions page against the
view `v` of a transaction: the Rate button renders only when
`v.status = completed` and `v.hasRating = false`
(Admin.tsx source file line 909); when it renders, `submitRating`
(lines 766-790) inserts the rating unconditionally, attributing the
rated party as the counterpart of the rater (lines 769-771; the
purchases tab lists rows with `buyer_id = uid`, the sales tab rows with
`seller_id = uid`).  Neither `submitRating` nor the `ratings` table
checks the stored transaction status or an existing rating. -/
def rateTransaction (db : DB) (uid : Nat) (v : TxnView) : DB × RateResult :=
  if !(v.status == .completed) then (db, .notCompleted)
  else if v.hasRating then (db, .alreadyRated)
  else
    let ratedUser := if v.buyer_id == uid then v.seller_id else v.buyer_id
    ({ db with ratings := db.ratings ++
        [{ transaction_id := v.id, rater_id := uid, rated_user_id := ratedUser }] },
     .rated)

/-! ### Concrete states and traces used by the claim theorems -/

/-- A listing (id 1, seller 10, approved) with two pending offers:
transaction 1 by buyer 20 and transaction 2 by buyer 30. -/
def db0 : DB :=
  { listings := [{ id := 1, seller_id := 10, status := .approved }],
    transactions :=
      [{ id := 1, listing_id := some 1, buyer_id := 20, seller_id := 10,
         amount := 5, payment_method := "cash", status := .pending,
         completed_at := none },
       { id := 2, listing_id := some 1, buyer_id := 30, seller_id := 10,
         amount := 5, payment_method := "cash", status := .pending,
         completed_at := none }],
    ratings := [], notices := [], admin_ids := [] }

/-- The interested-buyers snapshot of listing 1 in `db0`, as
`fetchListings` produces it: both offers are pending. -/
def snap0 : ListingWithBuyers :=
  { id := 1, title := "book", interested_buyers := interestedBuyersFor db0 1 }

/-- First finalization: the seller accepts offer 1 (buyer 20). -/
def finA : DB × AcceptResult :=
  handleAcceptBuyer db0 10 snap0 { transaction_id := 1, buyer_id := 20 } 100
    false false false false

/-- Second finalization on the same listing, issued from the same
snapshot (e.g. the dialog still open in a second tab): the seller
accepts offer 2 (buyer 30). -/
def finB : DB × AcceptResult :=
  handleAcceptBuyer finA.1 10 snap0 { transaction_id := 2, buyer_id := 30 } 200
    false false false false

/-- A listing (id 1, seller 10) that was independently rejected, with a
pending offer: transaction 3 by buyer 40. -/
def dbRej : DB :=
  { listings := [{ id := 1, seller_id := 10, status := .rejected }],
    transactions :=
      [{ id := 3, listing_id := some 1, buyer_id := 40, seller_id := 10,
         amount := 5, payment_method := "cash", status := .pending,
         completed_at := none }],
    ratings := [], notices := [], admin_ids := [] }

/-- Finalization of the rejected listing of `dbRej`, from a snapshot
taken while offer 3 was pending. -/
def finRej : DB × AcceptResult :=
  handleAcceptBuyer dbRej 10
    { id := 1, title := "book",
      interested_buyers := [{ transaction_id := 3, buyer_id := 40 }] }
    { transaction_id := 3, buyer_id := 40 } 300 false false false false

/-- C1: the claim asserts that across finalize calls on one listing with
distinct offer ids exactly one call returns success and every other call
returns AlreadyFinalized and mutates no offer.  On the code this fails:
in `db0` (listing approved, offers 1 and 2 pending) the seller's first
accept of offer 1 succeeds, and a second accept of offer 2 issued from
the same snapshot also reports success — there is no AlreadyFinalized
outcome — and the second call mutates both offers, re-completing the
cancelled offer 2 and cancelling the completed offer 1. -/
theorem C1_second_finalize_also_succeeds :
    finA.2 = .ok ∧ finB.2 = .ok ∧
    finA.1.transactions.map Txn.status = [.completed, .cancelled] ∧
    finB.1.transactions.map Txn.status = [.cancelled, .completed] := by
  decide

/-- C2: the claim asserts the first mutation of finalize is a conditional
transition that applies only when the stored state still equals
listed/approved, a false report aborting with AlreadyFinalized.  On the
code this fails: with the listing of `dbRej` already in the `rejected`
state, `handleAcceptBuyer`'s first write (filtered only by listing id and
seller id) blindly overwrites the status to `sold`, the protocol is not
aborted, the chosen offer is completed, and the call reports success. -/
theorem C2_overwrites_rejected_listing :
    dbRej.listings.map Listing.status = [.rejected] ∧
    finRej.2 = .ok ∧
    finRej.1.listings.map Listing.status = [.sold] ∧
    finRej.1.transactions.map Txn.status = [.completed] := by
  decide

/-- C3: the claim asserts an offer's status only ever moves
pending -> completed or pending -> cancelled.  On the code this fails:
in the `db0` double-accept trace, offer 1 is `completed` after the first
call and `cancelled` after the second (a completed -> cancelled step),
and offer 2 is `cancelled` after the first call and `completed` after
the second (a cancelled -> completed step). -/
theorem C3_terminal_statuses_overwritten :
    ((finA.1.transactions.map Txn.status = [.completed, .cancelled]) ∧
     (finB.1.transactions.map Txn.status = [.cancelled, .completed])) ∧
    db0.transactions.map Txn.status = [.pending, .pending] := by
  decide

/-! ### Frame lemmas for the store primitives -/

theorem listMapId {α : Type} (l : List α) (f : α → α) (h : ∀ a ∈ l, f a = a) :
    l.map f = l := by
  induction l with
  | nil => rfl
  | cons a t ih =>
    simp only [List.map_cons]
    rw [h a (List.mem_cons_self a t), ih fun x hx => h x (List.mem_cons_of_mem a hx)]

theorem markListingSold_transactions (db : DB) (uid lid : Nat) :
    (markListingSold db uid lid).transactions = db.transactions := rfl

theorem markListingSold_notices (db : DB) (uid lid : Nat) :
    (markListingSold db uid lid).notices = db.notices := rfl

theorem completeTxn_listings (db : DB) (uid tid now : Nat) :
    (completeTxn db uid tid now).listings = db.listings := rfl

theorem completeTxn_notices (db : DB) (uid tid now : Nat) :
    (completeTxn db uid tid now).notices = db.notices := rfl

theorem cancelTxns_listings (db : DB) (uid : Nat) (ids : List Nat) :
    (cancelTxns db uid ids).listings = db.listings := rfl

theorem cancelTxns_notices (db : DB) (uid : Nat) (ids : List Nat) :
    (cancelTxns db uid ids).notices = db.notices := rfl

theorem pushNote_listings (db : DB) (n : Notice) :
    (pushNote db n).listings = db.listings := rfl

theorem pushNote_transactions (db : DB) (n : Notice) :
    (pushNote db n).transactions = db.transactions := rfl

/-- Folding notification pushes only appends to the notices table. -/
theorem foldl_pushNote (mk : InterestedBuyer → Notice) (l : List InterestedBuyer)
    (db : DB) :
    l.foldl (fun d b => pushNote d (mk b)) db =
      { db with notices := db.notices ++ l.map mk } := by
  induction l generalizing db with
  | nil => simp
  | cons a t ih =>
    rw [List.foldl_cons, ih]
    simp [pushNote, List.append_assoc]

/-- A caller who owns no listing of the store cannot change the listings
table: the update of step 1 filters on `seller_id = uid`. -/
theorem markListingSold_frame (db : DB) (uid lid : Nat)
    (h : ∀ l ∈ db.listings, l.seller_id ≠ uid) :
    markListingSold db uid lid = db := by
  have hm : db.listings.map (fun l =>
      if l.id == lid && l.seller_id == uid && canUpdateListing db uid l
      then { l with status := LStatus.sold } else l) = db.listings :=
    listMapId _ _ fun l hl => by
      have hb : (l.seller_id == uid) = false := beq_eq_false_iff_ne.mpr (h l hl)
      simp [hb]
  unfold markListingSold
  rw [hm]

/-- A caller who is the recorded seller of no transaction cannot change
the transactions table through step 2, which filters on `seller_id = uid`. -/
theorem completeTxn_frame (db : DB) (uid tid now : Nat)
    (h : ∀ t ∈ db.transactions, t.seller_id ≠ uid) :
    completeTxn db uid tid now = db := by
  have hm : db.transactions.map (fun t =>
      if t.id == tid && t.seller_id == uid && canUpdateTxn uid t
      then { t with status := TStatus.completed, completed_at := some now }
      else t) = db.transactions :=
    listMapId _ _ fun t ht => by
      have hb : (t.seller_id == uid) = false := beq_eq_false_iff_ne.mpr (h t ht)
      simp [hb]
  unfold completeTxn
  rw [hm]

/-- A caller who is party to no transaction of the store cannot change
the transactions table through step 3: the row-level-security USING
condition requires `buyer_id = uid` or `seller_id = uid`. -/
theorem cancelTxns_frame (db : DB) (uid : Nat) (ids : List Nat)
    (h : ∀ t ∈ db.transactions, t.seller_id ≠ uid ∧ t.buyer_id ≠ uid) :
    cancelTxns db uid ids = db := by
  have hm : db.transactions.map (fun t =>
      if ids.contains t.id && canUpdateTxn uid t
      then { t with status := TStatus.cancelled } else t) = db.transactions :=
    listMapId _ _ fun t ht => by
      have hb1 : (t.seller_id == uid) = false :=
        beq_eq_false_iff_ne.mpr (h t ht).1
      have hb2 : (t.buyer_id == uid) = false :=
        beq_eq_false_iff_ne.mpr (h t ht).2
      simp [canUpdateTxn, hb1, hb2]
  unfold cancelTxns
  rw [hm]

/-- The chosen transaction id is excluded from the competing-id list of
step 3 by construction. -/
theorem chosen_not_competing (snap : ListingWithBuyers) (buyer : InterestedBuyer) :
    buyer.transaction_id ∉ competingIds snap buyer := by
  simp only [competingIds, List.mem_map, List.mem_filter, bne_iff_ne]
  rintro ⟨b, ⟨-, hne⟩, heq⟩
  exact hne heq

/-- A finalization of listing 1 of `db0` run by user 99, who is not the
listing's seller (seller 10) and is party to none of its transactions. -/
def finAtk : DB × AcceptResult :=
  handleAcceptBuyer db0 99 snap0 { transaction_id := 1, buyer_id := 20 } 100
    false false false false

/-- C4: the claim asserts that a finalize invocation by a non-owner
returns NotAuthorized before any mutation.  On the code this fails: for
the caller 99 (not the owner of listing 1) the call reports success —
there is no NotAuthorized outcome — and it has already mutated the store
by inserting both notifications; the listing and the offers are
unchanged only because the update filters matched no row. -/
theorem C4_nonowner_reports_success :
    finAtk.2 = .ok ∧
    finAtk.1.listings = db0.listings ∧
    finAtk.1.transactions = db0.transactions ∧
    finAtk.1.notices =
      [confirmNote snap0 { transaction_id := 1, buyer_id := 20 },
       soldNote snap0 { transaction_id := 2, buyer_id := 30 }] := by
  decide

/-- C4 (amended): a finalize invocation by a caller who owns none of the
stored listings and is party to none of the stored transactions leaves
the listings and transactions tables unchanged — the writes are fenced
by the `seller_id = uid` filters and the row-level-security conditions —
but the call does not detect this: it reports success rather than
NotAuthorized, and it still queues the purchase-confirmed and item-sold
notifications. -/
theorem C4_amended_nonowner_mutates_nothing_but_succeeds
    (db : DB) (uid : Nat) (snap : ListingWithBuyers) (buyer : InterestedBuyer)
    (now : Nat)
    (hl : ∀ l ∈ db.listings, l.seller_id ≠ uid)
    (ht : ∀ t ∈ db.transactions, t.seller_id ≠ uid ∧ t.buyer_id ≠ uid) :
    (handleAcceptBuyer db uid snap buyer now false false false false).2 = .ok ∧
    (handleAcceptBuyer db uid snap buyer now false false false false).1.listings
      = db.listings ∧
    (handleAcceptBuyer db uid snap buyer now false false false false).1.transactions
      = db.transactions ∧
    (handleAcceptBuyer db uid snap buyer now false false false false).1.notices
      = db.notices ++ confirmNote snap buyer ::
          ((snap.interested_buyers.filter fun b =>
              b.transaction_id != buyer.transaction_id).map (soldNote snap)) := by
  have h1 : markListingSold db uid snap.id = db := markListingSold_frame db uid snap.id hl
  have h2 : completeTxn db uid buyer.transaction_id now = db :=
    completeTxn_frame db uid buyer.transaction_id now fun t htm => (ht t htm).1
  have h3 : cancelTxns db uid (competingIds snap buyer) = db :=
    cancelTxns_frame db uid (competingIds snap buyer) ht
  unfold handleAcceptBuyer
  simp only [Bool.false_eq_true, if_false, h1, h2, h3, Bool.or_false, ite_self,
    foldl_pushNote]
  simp [pushNote, List.append_assoc]

/-- Witness for the amended C4, at the concrete attacker state of
`finAtk`. -/
theorem C4_amended_witness :
    (handleAcceptBuyer db0 99 snap0 { transaction_id := 1, buyer_id := 20 } 100
        false false false false).2 = .ok ∧
    (handleAcceptBuyer db0 99 snap0 { transaction_id := 1, buyer_id := 20 } 100
        false false false false).1.listings = db0.listings ∧
    (handleAcceptBuyer db0 99 snap0 { transaction_id := 1, buyer_id := 20 } 100
        false false false false).1.transactions = db0.transactions ∧
    (handleAcceptBuyer db0 99 snap0 { transaction_id := 1, buyer_id := 20 } 100
        false false false false).1.notices =
      db0.notices ++ confirmNote snap0 { transaction_id := 1, buyer_id := 20 } ::
        ((snap0.interested_buyers.filter fun b =>
            b.transaction_id != (1 : Nat)).map (soldNote snap0)) :=
  C4_amended_nonowner_mutates_nothing_but_succeeds db0 99 snap0
    { transaction_id := 1, buyer_id := 20 } 100 (by decide) (by decide)

/-- The finalization of `db0`'s listing in which the commit of the chosen
offer fails (a storage fault of the step-2 update). -/
def finFail : DB × AcceptResult :=
  handleAcceptBuyer db0 10 snap0 { transaction_id := 1, buyer_id := 20 } 100
    false true false false

/-- C5: the claim asserts that when the commit of the chosen offer fails
after the listing was reserved, finalize rolls the listing back to
listed and returns OfferInvalid.  On the code this fails: the thrown
error aborts the flow with a generic failure — there is no OfferInvalid
outcome — and no compensating write exists, so the listing stays `sold`
while both offers are still `pending`. -/
theorem C5_no_rollback_on_commit_failure :
    finFail.2 = .txnUpdateFailed ∧
    finFail.1.listings.map Listing.status = [.sold] ∧
    finFail.1.transactions.map Txn.status = [.pending, .pending] := by
  decide

/-- C5 (amended): when the step-2 update fails, `handleAcceptBuyer`
aborts with the transaction-update failure and performs no compensation:
the resulting store is exactly the store after step 1 marked the listing
sold, for every input state. -/
theorem C5_amended_commit_failure_leaves_listing_sold
    (db : DB) (uid : Nat) (snap : ListingWithBuyers) (buyer : InterestedBuyer)
    (now : Nat) (cf nf : Bool) :
    handleAcceptBuyer db uid snap buyer now false true cf nf =
      (markListingSold db uid snap.id, .txnUpdateFailed) := rfl

/-- A completed transaction (id 1, buyer 20, seller 10) on a sold listing. -/
def txn1 : Txn :=
  { id := 1, listing_id := some 1, buyer_id := 20, seller_id := 10,
    amount := 5, payment_method := "cash", status := .completed,
    completed_at := some 100 }

/-- The store in which `txn1` is completed and nothing has been rated. -/
def dbRate : DB :=
  { listings := [{ id := 1, seller_id := 10, status := .sold }],
    transactions := [txn1],
    ratings := [], notices := [], admin_ids := [] }

/-- Buyer 20 rates `txn1` from a fresh Transactions-page view. -/
def rateOnce : DB × RateResult :=
  rateTransaction dbRate 20 (mkTxnView dbRate 20 txn1)

/-- Buyer 20 rates `txn1` again from the same, now stale, view (e.g. the
page still open in a second tab, which never refetched). -/
def rateTwice : DB × RateResult :=
  rateTransaction rateOnce.1 20 (mkTxnView dbRate 20 txn1)

/-- C6: the claim asserts a second rating attempt by the same rater for
the same offer returns DuplicateRating, and at most one Rating per
(offer, rater) pair is ever stored.  On the code this fails: the
duplicate check is only the Rate-button render condition evaluated
against the caller's fetched snapshot, and the `ratings` table has no
uniqueness constraint, so a second attempt issued from a stale view also
succeeds and a second rating row for the pair (txn 1, rater 20) is
stored. -/
theorem C6_stale_view_stores_duplicate_rating :
    rateOnce.2 = .rated ∧ rateTwice.2 = .rated ∧
    ratingCount rateTwice.1 1 20 = 2 := by
  decide

/-- C6 (amended): against the view freshly computed from the current
store, the rating flow behaves as claimed — an offer whose status is
pending or cancelled is refused (the Rate button is not rendered)
without persisting anything; a completed offer with an existing rating
by the rater is refused; a completed offer without one is rated, exactly
one row is added for the pair, and the immediately refreshed view
refuses a repeat attempt.  The uniqueness of ratings per (offer, rater)
holds only under such fresh views: it is enforced by the client
snapshot, not by the store. -/
theorem C6_amended_fresh_view_gating (db : DB) (uid : Nat) (t : Txn) :
    (t.status = .pending ∨ t.status = .cancelled →
      rateTransaction db uid (mkTxnView db uid t) = (db, .notCompleted)) ∧
    (t.status = .completed → hasRatingBy db t.id uid = true →
      rateTransaction db uid (mkTxnView db uid t) = (db, .alreadyRated)) ∧
    (t.status = .completed → hasRatingBy db t.id uid = false →
      (rateTransaction db uid (mkTxnView db uid t)).2 = .rated ∧
      ratingCount (rateTransaction db uid (mkTxnView db uid t)).1 t.id uid =
        ratingCount db t.id uid + 1 ∧
      rateTransaction (rateTransaction db uid (mkTxnView db uid t)).1 uid
          (mkTxnView (rateTransaction db uid (mkTxnView db uid t)).1 uid t) =
        ((rateTransaction db uid (mkTxnView db uid t)).1, .alreadyRated)) := by
  refine ⟨?_, ?_, ?_⟩
  · rintro (h | h) <;> simp [rateTransaction, mkTxnView, h]
  · intro hs hr
    simp [rateTransaction, mkTxnView, hs, hr]
  · intro hs hr
    have key : rateTransaction db uid (mkTxnView db uid t) =
        ({ db with ratings := db.ratings ++
            [{ transaction_id := t.id, rater_id := uid,
               rated_user_id := if t.buyer_id == uid then t.seller_id
                                else t.buyer_id }] },
         RateResult.rated) := by
      simp [rateTransaction, mkTxnView, hs, hr]
    refine ⟨by rw [key], ?_, ?_⟩
    · rw [key]
      simp [ratingCount, List.filter_append]
    · rw [key]
      simp [rateTransaction, mkTxnView, hasRatingBy, List.any_append, hs]

/-- Witness for the amended C6 at the concrete state `dbRate`. -/
theorem C6_amended_witness :
    (rateTransaction dbRate 20 (mkTxnView dbRate 20 txn1)).2 = .rated ∧
    ratingCount (rateTransaction dbRate 20 (mkTxnView dbRate 20 txn1)).1 1 20 =
      ratingCount dbRate 1 20 + 1 ∧
    rateTransaction (rateTransaction dbRate 20 (mkTxnView dbRate 20 txn1)).1 20
        (mkTxnView (rateTransaction dbRate 20 (mkTxnView dbRate 20 txn1)).1 20 txn1) =
      ((rateTransaction dbRate 20 (mkTxnView dbRate 20 txn1)).1, .alreadyRated) :=
  (C6_amended_fresh_view_gating dbRate 20 txn1).2.2 (by decide) (by decide)

/-- Buyer 50 runs the buy flow against the already sold listing of
`dbRate` (e.g. from a detail page fetched before the sale). -/
def buySold : DB × BuyResult :=
  handlePurchase dbRate 50
    { id := 1, seller_id := 10, price := 5, listing_type := "sale",
      status := .sold }
    "cash" 9 false

/-- C7: the claim asserts `createOffer` succeeds only when the listing is
in the listed/approved state and errs otherwise, so that no new offer
can be created once the listing is sold.  On the code this fails:
`handlePurchase` checks no listing status at all, so against the sold
listing of `dbRate` it reports success and a new pending transaction
referencing the sold listing is stored. -/
theorem C7_purchase_against_sold_listing :
    dbRate.listings.map Listing.status = [.sold] ∧
    buySold.2 = .ok ∧
    buySold.1.transactions.map Txn.status = [.completed, .pending] ∧
    buySold.1.transactions.map Txn.listing_id = [some 1, some 1] := by
  decide

/-- C7 (amended): `handlePurchase` inserts the pending transaction and
reports success for every current listing state — it performs no status
check, and the only gating is the detail page hiding the Buy button when
its own fetched snapshot says `sold` (`buyButtonShown`).  A snapshot
taken before the sale therefore still creates an offer against a sold
listing. -/
theorem C7_amended_purchase_ignores_listing_state
    (db : DB) (uid : Nat) (l : ListingView) (payment : String) (tid : Nat) :
    (handlePurchase db uid l payment tid false).2 = .ok ∧
    (handlePurchase db uid l payment tid false).1.transactions =
      db.transactions ++ [purchaseTxn uid l payment tid] ∧
    buyButtonShown { l with status := .sold } uid = false := by
  refine ⟨rfl, ?_, ?_⟩
  · simp [handlePurchase, pushNote]
  · simp [buyButtonShown]

/-- An element of a list survives a map that fixes it. -/
theorem mem_map_self {α : Type} (l : List α) (f : α → α) (a : α) (ha : a ∈ l)
    (hfa : f a = a) : a ∈ l.map f := hfa ▸ List.mem_map_of_mem f ha

/-- Notification pushes leave the listings table untouched. -/
theorem foldl_pushNote_listings (mk : InterestedBuyer → Notice)
    (l : List InterestedBuyer) (db : DB) :
    (l.foldl (fun d b => pushNote d (mk b)) db).listings = db.listings := by
  rw [foldl_pushNote]

/-- Notification pushes leave the transactions table untouched. -/
theorem foldl_pushNote_transactions (mk : InterestedBuyer → Notice)
    (l : List InterestedBuyer) (db : DB) :
    (l.foldl (fun d b => pushNote d (mk b)) db).transactions = db.transactions := by
  rw [foldl_pushNote]

/-- C8: once steps 1 and 2 have committed, `handleAcceptBuyer` returns
success for every combination of cancellation and notification faults —
those failures are logged and dropped, never surfaced — and the
committed writes stand: the final listings table is exactly the
step-1 result, and the chosen transaction row as completed by step 2 is
still present in the final store (the step-3 id list excludes the chosen
id by construction, and notification pushes touch no transaction). -/
theorem C8_commit_final_despite_late_faults
    (db : DB) (uid : Nat) (snap : ListingWithBuyers) (buyer : InterestedBuyer)
    (now : Nat) (cf nf : Bool) :
    (handleAcceptBuyer db uid snap buyer now false false cf nf).2 = .ok ∧
    (handleAcceptBuyer db uid snap buyer now false false cf nf).1.listings =
      (markListingSold db uid snap.id).listings ∧
    (∀ t, t ∈ (completeTxn (markListingSold db uid snap.id) uid
          buyer.transaction_id now).transactions →
      t.id = buyer.transaction_id →
      t ∈ (handleAcceptBuyer db uid snap buyer now false false cf nf).1.transactions) := by
  refine ⟨rfl, ?_, ?_⟩
  · unfold handleAcceptBuyer
    by_cases hc : ((competingIds snap buyer).isEmpty || cf) = true <;>
      by_cases hn : nf = true <;>
        simp [hc, hn, foldl_pushNote_listings, pushNote_listings,
          cancelTxns_listings, completeTxn_listings]
  · intro t ht hid
    have hmem : t.id ∉ competingIds snap buyer :=
      hid ▸ chosen_not_competing snap buyer
    have hnc : ((competingIds snap buyer).contains t.id) = false := by
      simp [hmem]
    have hcancel : t ∈ (cancelTxns (completeTxn (markListingSold db uid snap.id)
        uid buyer.transaction_id now) uid (competingIds snap buyer)).transactions := by
      unfold cancelTxns
      refine mem_map_self _ _ t ht ?_
      rw [hnc]
      simp
    unfold handleAcceptBuyer
    by_cases hc : ((competingIds snap buyer).isEmpty || cf) = true
    · by_cases hn : nf = true
      · simpa [hc, hn] using ht
      · simpa [hc, hn, foldl_pushNote_transactions, pushNote_transactions] using ht
    · by_cases hn : nf = true
      · simpa [hc, hn] using hcancel
      · simpa [hc, hn, foldl_pushNote_transactions, pushNote_transactions]
          using hcancel

/-- Witness for C8 at the concrete state `db0`, with both the
cancellation fault and the notification fault raised: the call still
reports success and the completed chosen transaction `txn1` is in the
final store. -/
theorem C8_commit_final_witness :
    (handleAcceptBuyer db0 10 snap0 { transaction_id := 1, buyer_id := 20 } 100
        false false true true).2 = .ok ∧
    txn1 ∈ (handleAcceptBuyer db0 10 snap0 { transaction_id := 1, buyer_id := 20 }
        100 false false true true).1.transactions := by
  refine ⟨(C8_commit_final_despite_late_faults db0 10 snap0
      { transaction_id := 1, buyer_id := 20 } 100 true true).1, ?_⟩
  exact (C8_commit_final_despite_late_faults db0 10 snap0
      { transaction_id := 1, buyer_id := 20 } 100 true true).2.2 txn1
    (by decide) (by decide)

/-- Notification pushes only append to the notices table. -/
theorem pushNote_notices (db : DB) (n : Notice) :
    (pushNote db n).notices = db.notices ++ [n] := rfl

/-- The notices after a notification fold: the start state's notices
followed by one notice per folded element. -/
theorem foldl_pushNote_notices (mk : InterestedBuyer → Notice)
    (l : List InterestedBuyer) (db : DB) :
    (l.foldl (fun d b => pushNote d (mk b)) db).notices =
      db.notices ++ l.map mk := by
  rw [foldl_pushNote]

/-- A listing with one still-pending offer (1, buyer 20) and one offer
(2, buyer 30) that was already cancelled after the snapshot was taken. -/
def db9 : DB :=
  { listings := [{ id := 1, seller_id := 10, status := .approved }],
    transactions :=
      [{ id := 1, listing_id := some 1, buyer_id := 20, seller_id := 10,
         amount := 5, payment_method := "cash", status := .pending,
         completed_at := none },
       { id := 2, listing_id := some 1, buyer_id := 30, seller_id := 10,
         amount := 5, payment_method := "cash", status := .cancelled,
         completed_at := none }],
    ratings := [], notices := [], admin_ids := [] }

/-- A stale snapshot of `db9`'s listing, taken back when both offers
were pending. -/
def snap9 : ListingWithBuyers :=
  { id := 1, title := "book",
    interested_buyers := [{ transaction_id := 1, buyer_id := 20 },
                          { transaction_id := 2, buyer_id := 30 }] }

/-- Accepting offer 1 of `db9` from the stale snapshot `snap9`. -/
def fin9 : DB × AcceptResult :=
  handleAcceptBuyer db9 10 snap9 { transaction_id := 1, buyer_id := 20 } 100
    false false false false

/-- C9: the claim asserts an item-sold notification is queued per
successfully cancelled competing buyer, and only for those whose
cancellation applied.  On the code this fails: the fan-out iterates the
snapshot, not the cancellation results — in `db9`, offer 2 was already
`cancelled` before the call, so no pending-to-cancelled transition could
apply to it, yet its buyer 30 still receives the notification (whose
stored `type` is `purchase_rejected`, titled `Item Sold`). -/
theorem C9_notifies_buyer_without_applied_cancellation :
    db9.transactions.map Txn.status = [.pending, .cancelled] ∧
    fin9.2 = .ok ∧
    fin9.1.notices =
      [confirmNote snap9 { transaction_id := 1, buyer_id := 20 },
       soldNote snap9 { transaction_id := 2, buyer_id := 30 }] ∧
    (soldNote snap9 { transaction_id := 2, buyer_id := 30 }).ntype =
      "purchase_rejected" := by
  decide

/-- C9 (amended): on the fault-free notification path, finalize reports
success, the listing write of step 1 stands, and exactly one
purchase-confirmed notification is queued for the chosen buyer plus one
item-sold notification per competing buyer of the snapshot — regardless
of whether that buyer's offer was still pending, i.e. regardless of
whether any cancellation applied to it; queuing affects no listing and
never changes the result. -/
theorem C9_amended_notification_fanout
    (db : DB) (uid : Nat) (snap : ListingWithBuyers) (buyer : InterestedBuyer)
    (now : Nat) (cf : Bool) :
    (handleAcceptBuyer db uid snap buyer now false false cf false).2 = .ok ∧
    (handleAcceptBuyer db uid snap buyer now false false cf false).1.listings =
      (markListingSold db uid snap.id).listings ∧
    (handleAcceptBuyer db uid snap buyer now false false cf false).1.notices =
      db.notices ++ confirmNote snap buyer ::
        ((snap.interested_buyers.filter fun b =>
            b.transaction_id != buyer.transaction_id).map (soldNote snap)) := by
  refine ⟨rfl, ?_, ?_⟩
  · unfold handleAcceptBuyer
    by_cases hc : ((competingIds snap buyer).isEmpty || cf) = true <;>
      simp [hc, foldl_pushNote_listings, pushNote_listings, cancelTxns_listings,
        completeTxn_listings]
  · unfold handleAcceptBuyer
    by_cases hc : ((competingIds snap buyer).isEmpty || cf) = true <;>
      simp [hc, foldl_pushNote_notices, pushNote_notices, cancelTxns_notices,
        completeTxn_notices, markListingSold_notices, List.append_assoc]

/-- C10: the set of offers that finalization cancels and notifies is
fixed by the interested-buyers snapshot passed into `handleAcceptBuyer`,
not by a fresh read.  On the fault-free path: (a) every stored
transaction whose id is in the snapshot's competing-id list (and which
the caller may update under row-level security) ends cancelled in the
final store; (b) every stored transaction outside that list, other than
the chosen one, is untouched — in particular a pending transaction
created after the snapshot is neither completed nor cancelled; (c) the
queued notifications are exactly the chosen buyer's confirmation plus
one per competing snapshot entry, so a buyer absent from the snapshot is
not notified. -/
theorem C10_cancellation_set_fixed_by_snapshot
    (db : DB) (uid : Nat) (snap : ListingWithBuyers) (buyer : InterestedBuyer)
    (now : Nat) :
    (∀ t ∈ db.transactions, t.id ∈ competingIds snap buyer →
        canUpdateTxn uid t = true →
        { t with status := TStatus.cancelled } ∈
          (handleAcceptBuyer db uid snap buyer now
            false false false false).1.transactions) ∧
    (∀ t ∈ db.transactions, t.id ∉ competingIds snap buyer →
        t.id ≠ buyer.transaction_id →
        t ∈ (handleAcceptBuyer db uid snap buyer now
            false false false false).1.transactions) ∧
    (handleAcceptBuyer db uid snap buyer now
        false false false false).1.notices =
      db.notices ++ confirmNote snap buyer ::
        ((snap.interested_buyers.filter fun b =>
            b.transaction_id != buyer.transaction_id).map (soldNote snap)) := by
  refine ⟨?_, ?_, ?_⟩
  · intro t ht hmem hcan
    have hne : t.id ≠ buyer.transaction_id := fun h =>
      chosen_not_competing snap buyer (h ▸ hmem)
    have hg : (t.id == buyer.transaction_id) = false := beq_eq_false_iff_ne.mpr hne
    have hnempty : ¬(((competingIds snap buyer).isEmpty || false) = true) := by
      simp only [Bool.or_false]
      intro h
      rw [List.isEmpty_iff] at h
      exact absurd (h ▸ hmem) (List.not_mem_nil _)
    have htarget : { t with status := TStatus.cancelled } ∈
        (cancelTxns (completeTxn (markListingSold db uid snap.id) uid
          buyer.transaction_id now) uid (competingIds snap buyer)).transactions := by
      show { t with status := TStatus.cancelled } ∈
        ((db.transactions.map fun t' =>
            if t'.id == buyer.transaction_id && t'.seller_id == uid &&
                canUpdateTxn uid t'
            then { t' with status := TStatus.completed, completed_at := some now }
            else t').map fun t' =>
            if (competingIds snap buyer).contains t'.id && canUpdateTxn uid t'
            then { t' with status := TStatus.cancelled } else t')
      rw [List.map_map]
      refine List.mem_map.mpr ⟨t, ht, ?_⟩
      simp [Function.comp, hg, hmem, hcan]
    unfold handleAcceptBuyer
    simpa [hnempty, foldl_pushNote_transactions, pushNote_transactions]
      using htarget
  · intro t ht hmem hne
    have hg : (t.id == buyer.transaction_id) = false := beq_eq_false_iff_ne.mpr hne
    have hfix2 : t ∈ (completeTxn (markListingSold db uid snap.id) uid
        buyer.transaction_id now).transactions := by
      show t ∈ db.transactions.map fun t' =>
        if t'.id == buyer.transaction_id && t'.seller_id == uid &&
            canUpdateTxn uid t'
        then { t' with status := TStatus.completed, completed_at := some now }
        else t'
      refine List.mem_map.mpr ⟨t, ht, ?_⟩
      simp [hg]
    have hfix : t ∈ (cancelTxns (completeTxn (markListingSold db uid snap.id) uid
        buyer.transaction_id now) uid (competingIds snap buyer)).transactions := by
      show t ∈
        ((db.transactions.map fun t' =>
            if t'.id == buyer.transaction_id && t'.seller_id == uid &&
                canUpdateTxn uid t'
            then { t' with status := TStatus.completed, completed_at := some now }
            else t').map fun t' =>
            if (competingIds snap buyer).contains t'.id && canUpdateTxn uid t'
            then { t' with status := TStatus.cancelled } else t')
      rw [List.map_map]
      refine List.mem_map.mpr ⟨t, ht, ?_⟩
      simp [Function.comp, hg, hmem]
    unfold handleAcceptBuyer
    by_cases hcase : ((competingIds snap buyer).isEmpty || false) = true
    · simpa [hcase, foldl_pushNote_transactions, pushNote_transactions]
        using hfix2
    · simpa [hcase, foldl_pushNote_transactions, pushNote_transactions]
        using hfix
  · unfold handleAcceptBuyer
    by_cases hc : ((competingIds snap buyer).isEmpty || false) = true <;>
      simp [hc, foldl_pushNote_notices, pushNote_notices, cancelTxns_notices,
        completeTxn_notices, markListingSold_notices, List.append_assoc]

/-- A pending transaction (id 5, buyer 50) created after the snapshot
`snap0` was taken. -/
def lateTxn : Txn :=
  { id := 5, listing_id := some 1, buyer_id := 50, seller_id := 10,
    amount := 5, payment_method := "cash", status := .pending,
    completed_at := none }

/-- `db0` extended with the post-snapshot pending transaction `lateTxn`. -/
def db10 : DB :=
  { db0 with transactions := db0.transactions ++ [lateTxn] }

/-- Witness for C10: accepting offer 1 of `db10` from the stale snapshot
`snap0` cancels the snapshot competitor (offer 2), leaves the
post-snapshot offer `lateTxn` pending and unnotified, and queues exactly
the snapshot-derived notifications. -/
theorem C10_snapshot_witness :
    { id := 2, listing_id := some 1, buyer_id := 30, seller_id := 10,
      amount := 5, payment_method := "cash", status := TStatus.cancelled,
      completed_at := none } ∈
      (handleAcceptBuyer db10 10 snap0 { transaction_id := 1, buyer_id := 20 }
        100 false false false false).1.transactions ∧
    lateTxn ∈
      (handleAcceptBuyer db10 10 snap0 { transaction_id := 1, buyer_id := 20 }
        100 false false false false).1.transactions ∧
    (handleAcceptBuyer db10 10 snap0 { transaction_id := 1, buyer_id := 20 }
        100 false false false false).1.notices =
      db10.notices ++
        confirmNote snap0 { transaction_id := 1, buyer_id := 20 } ::
        ((snap0.interested_buyers.filter fun b =>
            b.transaction_id !=
              ({ transaction_id := 1, buyer_id := 20 } :
                InterestedBuyer).transaction_id).map (soldNote snap0)) := by
  have h := C10_cancellation_set_fixed_by_snapshot db10 10 snap0
    { transaction_id := 1, buyer_id := 20 } 100
  refine ⟨?_, h.2.1 lateTxn (by decide) (by decide) (by decide), h.2.2⟩
  exact h.1
    { id := 2, listing_id := some 1, buyer_id := 30, seller_id := 10,
      amount := 5, payment_method := "cash", status := TStatus.pending,
      completed_at := none } (by decide) (by decide) (by decide)
